import Mathlib

/-!
Verification of the out123 audio output library interface
(src/src/libout123/out123.h) against its natural-language specification.

The repository snapshot contains only the public header; the implementation
(out123.c, the buffer process, the module loader and mpg123.h) is absent.
Definitions below therefore fall in two groups:

* translated from the source header itself (the out123_samplesize macro,
  the out123_parms codes, the out123_error ordinals, the out123_flags bits);
* modelled from the spec, for behaviour whose implementing code is missing
  from the source tree; each such definition carries a doc comment starting
  with the words Modelled from the spec.
-/

/-! ## Encoding constants

Modelled from the spec: the MPG123_ENC_* constants live in mpg123.h, which
the header includes but which is not in the source tree. The values are the
stable mpg123 API encoding bitmasks; the header comment at out123.h lines
267-269 records that only 15 bits are used for encodings. -/

def MPG123_ENC_8 : Int := 0x00f

def MPG123_ENC_16 : Int := 0x040

def MPG123_ENC_24 : Int := 0x4000

def MPG123_ENC_32 : Int := 0x100

def MPG123_ENC_FLOAT_32 : Int := 0x200

def MPG123_ENC_FLOAT_64 : Int := 0x400

/-- Modelled from the spec: the list of concrete encoding values of the
mpg123 API (mpg123.h is not in the source tree), as natural numbers.
Every member fits in 15 bits, matching the header comment that only
15 bits are used for encodings. -/
def mpg123_encodings : List Nat :=
  [ 0x001  -- unsigned 8 bit
  , 0x082  -- signed 8 bit
  , 0x004  -- ulaw 8 bit
  , 0x008  -- alaw 8 bit
  , 0x0d0  -- signed 16 bit
  , 0x060  -- unsigned 16 bit
  , 0x5080 -- signed 24 bit
  , 0x6000 -- unsigned 24 bit
  , 0x1180 -- signed 32 bit
  , 0x2100 -- unsigned 32 bit
  , 0x200  -- 32 bit float
  , 0x400  -- 64 bit float
  ]

/-- Translation of the out123_samplesize macro from out123.h lines 285-297:
a chain of conditional expressions testing the width flags narrowest first,
then the exact float encodings, defaulting to 0. -/
def out123_samplesize (enc : Int) : Int :=
  if Int.land enc MPG123_ENC_8 ≠ 0 then 1
  else if Int.land enc MPG123_ENC_16 ≠ 0 then 2
  else if Int.land enc MPG123_ENC_24 ≠ 0 then 3
  else if Int.land enc MPG123_ENC_32 ≠ 0 ∨ enc = MPG123_ENC_FLOAT_32 then 4
  else if enc = MPG123_ENC_FLOAT_64 then 8
  else 0

/-! ## Error codes

Ordinal values from the out123_error enumeration in out123.h lines 140-154
(reading past the stray leading comma in the enum body, whose intent is
clear from the docs: OUT123_ERR is -1 and OUT123_OK is 0). -/

def OUT123_ERR : Int := -1

def OUT123_OK : Int := 0

def OUT123_DOOM : Int := 1

def OUT123_BAD_DRIVER_NAME : Int := 2

def OUT123_BAD_DRIVER : Int := 3

def OUT123_NO_DRIVER : Int := 4

def OUT123_NOT_LIVE : Int := 5

def OUT123_DEV_PLAY : Int := 6

def OUT123_DEV_OPEN : Int := 7

def OUT123_BUFFER_ERROR : Int := 8

/-- Modelled from the spec: section 4.1 has unknown parameter codes fail
with a BadParameter error. The error enumeration of this header snapshot
does not yet carry such a member, so it is modelled as the next free
ordinal after OUT123_BUFFER_ERROR. -/
def OUT123_BAD_PARAM : Int := 9

/-! ## Parameter codes, from the out123_parms enumeration,
out123.h lines 89-102 (OUT123_FLAGS = 1 and successors). -/

def OUT123_FLAGS : Int := 1

def OUT123_PRELOAD : Int := 2

def OUT123_GAIN : Int := 3

def OUT123_VERBOSE : Int := 4

def OUT123_DEVICEBUFFER : Int := 5

/-! ## Flag bits, from the out123_flags enumeration, out123.h lines 104-116. -/

def AUDIO_OUT_HEADPHONES : Int := 0x01

def AUDIO_OUT_INTERNAL_SPEAKER : Int := 0x02

def AUDIO_OUT_LINE_OUT : Int := 0x04

def OUT123_QUIET : Int := 0x08

def OUT123_KEEP_PLAYING : Int := 0x10

/-- Playback states of the spec, section 4.5: the ordered protocol
Closed, Opened, Started, Playing, Paused. -/
inductive PlayState where
  | Closed
  | Opened
  | Started
  | Playing
  | Paused
deriving DecidableEq, Repr

/-- Modelled from the spec: the Parameter Store of section 3 and 4.1, one
slot per defined parameter identifier. Integer parameters (flags, gain,
verbosity) hold a long; floating parameters (preload fraction, device
buffer seconds) hold a floating value, modelled as a rational. -/
structure ParamStore where
  flags : Int
  preload : Rat
  gain : Int
  verbose : Int
  devicebuffer : Rat
deriving DecidableEq, Repr

/-- Modelled from the spec: the Handle of section 3. It holds the current
Parameter Store, the playback state, at most one loaded driver, the optional
buffering subsystem (capacity of the ring buffer, zero meaning direct mode,
and the byte counts resident in the ring buffer and at the backend), the
last error code, and the platform capability bit for the separate execution
context mechanism (fork), which is fixed by the platform. -/
structure Handle where
  params : ParamStore
  state : PlayState
  driver : Option String
  buffer_size : Nat
  buffered : Nat
  backend_buffered : Nat
  errcode : Int
  fork_broken : Bool
deriving DecidableEq, Repr

/-- Modelled from the spec: out123_new allocates a fresh handle with default
parameters; the keep-playing flag is on by default (spec section 6). -/
def out123_new : Handle :=
  { params :=
      { flags := OUT123_KEEP_PLAYING
      , preload := 0
      , gain := 0
      , verbose := 0
      , devicebuffer := 0 }
  , state := PlayState.Closed
  , driver := none
  , buffer_size := 0
  , buffered := 0
  , backend_buffered := 0
  , errcode := OUT123_OK
  , fork_broken := false }

/-! ## Parameter Store operations -/

/-- Modelled from the spec: out123_param (out123.c is not in the source
tree), spec section 4.1. Sets the slot named by the code, taking the long
input for integer parameters and the floating input for floating
parameters; an unknown code fails with BadParameter. Returns the updated
handle and the status (0 success, -1 error). -/
def out123_param (ao : Handle) (code : Int) (value : Int) (fvalue : Rat) :
    Handle × Int :=
  if code = OUT123_FLAGS then
    ({ ao with params := { ao.params with flags := value } }, 0)
  else if code = OUT123_PRELOAD then
    ({ ao with params := { ao.params with preload := fvalue } }, 0)
  else if code = OUT123_GAIN then
    ({ ao with params := { ao.params with gain := value } }, 0)
  else if code = OUT123_VERBOSE then
    ({ ao with params := { ao.params with verbose := value } }, 0)
  else if code = OUT123_DEVICEBUFFER then
    ({ ao with params := { ao.params with devicebuffer := fvalue } }, 0)
  else
    ({ ao with errcode := OUT123_BAD_PARAM }, -1)

/-- Modelled from the spec: out123_getparam (out123.c is not in the source
tree), spec section 4.1. Returns the updated handle, the status, and the
pair of output values (long slot, floating slot); integer parameters are
reported through the long output, floating parameters through the floating
output; an unknown code fails with BadParameter. -/
def out123_getparam (ao : Handle) (code : Int) :
    Handle × Int × Int × Rat :=
  if code = OUT123_FLAGS then (ao, 0, ao.params.flags, 0)
  else if code = OUT123_PRELOAD then (ao, 0, 0, ao.params.preload)
  else if code = OUT123_GAIN then (ao, 0, ao.params.gain, 0)
  else if code = OUT123_VERBOSE then (ao, 0, ao.params.verbose, 0)
  else if code = OUT123_DEVICEBUFFER then (ao, 0, 0, ao.params.devicebuffer)
  else (({ ao with errcode := OUT123_BAD_PARAM } : Handle), -1, 0, 0)

/-! ## Driver Registry and open/close -/

/-- Modelled from the spec: the Driver Registry load step of section 4.2.
The candidate names are tried in order and the first one that loads in the
current environment wins; the environment is the list of loadable driver
names. -/
def registry_load (loadable : List String) (candidates : List String) :
    Option String :=
  candidates.find? (fun d => loadable.contains d)

/-- Modelled from the spec: out123_open (out123.c is not in the source
tree), spec sections 4.2 and 4.5. On success the first loadable candidate
driver is bound and the state moves to Opened; when no candidate resolves
and loads (in particular for an empty candidate list) the call fails with
the no-driver code and mutates nothing of the open state. -/
def out123_open (loadable : List String) (ao : Handle)
    (driver_names : List String) : Handle × Int :=
  match registry_load loadable driver_names with
  | some d => ({ ao with state := PlayState.Opened, driver := some d }, 0)
  | none => ({ ao with errcode := OUT123_NO_DRIVER }, -1)

/-- Modelled from the spec: out123_close (out123.c is not in the source
tree), spec section 4.5. Close reaches Closed from any state, releases the
driver and discards pending data; it is best-effort and reports no error
(the C signature returns void), leaving the recorded error code alone. -/
def out123_close (ao : Handle) : Handle :=
  { ao with
    state := PlayState.Closed
  , driver := none
  , buffered := 0
  , backend_buffered := 0 }

/-- Modelled from the spec: out123_del (out123.c is not in the source
tree). The value is the final handle state forced before deallocation:
close is applied, and any buffering resources are torn down as well. -/
def out123_del (ao : Handle) : Handle :=
  { out123_close ao with buffer_size := 0 }

/-- Modelled from the spec: out123_set_buffer (out123.c is not in the
source tree), spec section 4.4 and the header docs at lines 172-202. The
call always kills any currently active module and device. Size zero
disables buffering and always succeeds. A non-zero size fails when the
platform cannot provide the separate execution context (fork), and that
incapability is permanent for the handle, so every later non-zero call
fails as well. -/
def out123_set_buffer (ao : Handle) (buffer_bytes : Nat) : Handle × Int :=
  let killed : Handle :=
    { ao with
      state := PlayState.Closed
    , driver := none
    , buffered := 0
    , backend_buffered := 0 }
  if buffer_bytes = 0 then
    ({ killed with buffer_size := 0 }, 0)
  else if ao.fork_broken then
    ({ killed with errcode := OUT123_BUFFER_ERROR }, -1)
  else
    ({ killed with buffer_size := buffer_bytes }, 0)

/-! ## Playback data path -/

/-- Modelled from the spec: out123_buffered (out123.c is not in the source
tree). Reports the number of bytes resident in the library ring buffer. -/
def out123_buffered (ao : Handle) : Int :=
  (ao.buffered : Int)

/-- Modelled from the spec: out123_drop (out123.c is not in the source
tree), spec sections 4.5 and 5. Drop discards buffered and in-flight data
immediately, stays in the current high-level state and resets the
buffered-byte accounting to zero. -/
def out123_drop (ao : Handle) : Handle :=
  { ao with buffered := 0, backend_buffered := 0 }

/-- Modelled from the spec: out123_drain (out123.c is not in the source
tree), spec sections 4.4 and 4.5. Drain changes no state; it blocks until
the ring buffer is empty and the backend reports nothing buffered, so the
post-state carries zero bytes at both layers. -/
def out123_drain (ao : Handle) : Handle :=
  { ao with buffered := 0, backend_buffered := 0 }

/-- Modelled from the spec: the retry loop of out123_play (spec sections 5
and 9, signal-tolerant retry). An asynchronous non-fatal signal interrupts
a backend write, leaving a partial transfer; the trace lists how many bytes
each successive attempt moves before being interrupted. The loop keeps
retrying on the remainder until everything requested has been moved. -/
def playLoop : List Nat → Nat → Nat
  | [], _ => 0
  | a :: rest, bytes => min a bytes + playLoop rest (bytes - min a bytes)

/-- Modelled from the spec: out123_play (out123.c is not in the source
tree), header docs at lines 344-360 and spec section 5. With a started
device: when the keep-playing flag is set (the default) the call loops over
interrupted writes until all requested bytes are moved; when the flag is
cleared, a single interrupted attempt returns the partial count and records
a device playback error for the caller to inspect. Without a started
device the call fails with the not-live code and plays nothing. -/
def out123_play (ao : Handle) (trace : List Nat) (bytes : Nat) :
    Handle × Nat :=
  if ao.state = PlayState.Started ∨ ao.state = PlayState.Playing then
    if Int.land ao.params.flags OUT123_KEEP_PLAYING ≠ 0 then
      ({ ao with state := PlayState.Playing }, playLoop trace bytes)
    else
      let moved := min (trace.headD 0) bytes
      if moved < bytes then
        ({ ao with state := PlayState.Playing, errcode := OUT123_DEV_PLAY }
        , moved)
      else
        ({ ao with state := PlayState.Playing }, moved)
  else
    ({ ao with errcode := OUT123_NOT_LIVE }, 0)

/-- Modelled from the spec: out123_get_encodings (out123.c is not in the
source tree), header docs at lines 260-276 and spec section 4.3. The
backend capability table says which encodings it supports at a given
channel count and rate. With an open device the call implicitly stops into
query mode and returns the bitwise or of the supported encoding flags, or
-1 when the combination supports nothing; without an open device it fails
with the not-live code and -1. -/
def out123_get_encodings (backend : Int → Int → Nat → Bool) (ao : Handle)
    (channels : Int) (rate : Int) : Handle × Int :=
  if ao.driver = none then
    ({ ao with errcode := OUT123_NOT_LIVE }, -1)
  else if (mpg123_encodings.filter (backend channels rate)).isEmpty then
    ({ ao with state := PlayState.Opened }, -1)
  else
    ({ ao with state := PlayState.Opened }
    , (((mpg123_encodings.filter (backend channels rate)).foldl
          (fun a b => a ||| b) 0 : Nat) : Int))

/-! ## Helper lemmas -/

/-- The signal-tolerant retry loop moves as many bytes as the attempts can
carry, capped at the requested count. -/
theorem playLoop_eq_min (trace : List Nat) (bytes : Nat) :
    playLoop trace bytes = min trace.sum bytes := by
  induction trace generalizing bytes with
  | nil => simp [playLoop]
  | cons a rest ih =>
    simp only [playLoop, ih, List.sum_cons]
    omega

/-- A fold of bitwise or over numbers below a power of two stays below it. -/
theorem foldl_or_lt (l : List Nat) (acc : Nat) (hacc : acc < 2 ^ 15)
    (hl : ∀ e ∈ l, e < 2 ^ 15) :
    l.foldl (fun a b => a ||| b) acc < 2 ^ 15 := by
  induction l generalizing acc with
  | nil => simpa using hacc
  | cons a rest ih =>
    simp only [List.foldl_cons]
    exact ih _ (Nat.or_lt_two_pow hacc (hl a (by simp)))
      (fun e he => hl e (List.mem_cons_of_mem a he))

/-- Every concrete mpg123 encoding value occupies only 15 bits. -/
theorem mpg123_encodings_lt : ∀ e ∈ mpg123_encodings, e < 2 ^ 15 := by
  decide

/-! ## Claim theorems -/

/-- C10: the out123_samplesize macro is a total function on integer
encoding values with range contained in 0, 1, 2, 3, 4, 8; width flags are
tested narrowest first, so the 8 bit flag forces size 1 regardless of wider
bits, the 16 bit flag forces 2 when the 8 bit flag is clear, the 24 bit
flag forces 3 when both narrower flags are clear; with all narrower flags
clear, the 32 bit flag or exact equality with the 32 bit float encoding
gives 4; exact equality with the 64 bit float encoding gives 8; and an
encoding matching no known width gives 0. -/
theorem out123_samplesize_spec (enc : Int) :
    (out123_samplesize enc = 0 ∨ out123_samplesize enc = 1 ∨
     out123_samplesize enc = 2 ∨ out123_samplesize enc = 3 ∨
     out123_samplesize enc = 4 ∨ out123_samplesize enc = 8)
  ∧ (Int.land enc MPG123_ENC_8 ≠ 0 → out123_samplesize enc = 1)
  ∧ (Int.land enc MPG123_ENC_8 = 0 → Int.land enc MPG123_ENC_16 ≠ 0 →
     out123_samplesize enc = 2)
  ∧ (Int.land enc MPG123_ENC_8 = 0 → Int.land enc MPG123_ENC_16 = 0 →
     Int.land enc MPG123_ENC_24 ≠ 0 → out123_samplesize enc = 3)
  ∧ (Int.land enc MPG123_ENC_8 = 0 → Int.land enc MPG123_ENC_16 = 0 →
     Int.land enc MPG123_ENC_24 = 0 →
     (Int.land enc MPG123_ENC_32 ≠ 0 ∨ enc = MPG123_ENC_FLOAT_32) →
     out123_samplesize enc = 4)
  ∧ (enc = MPG123_ENC_FLOAT_64 → out123_samplesize enc = 8)
  ∧ (Int.land enc MPG123_ENC_8 = 0 → Int.land enc MPG123_ENC_16 = 0 →
     Int.land enc MPG123_ENC_24 = 0 → Int.land enc MPG123_ENC_32 = 0 →
     enc ≠ MPG123_ENC_FLOAT_32 → enc ≠ MPG123_ENC_FLOAT_64 →
     out123_samplesize enc = 0) := by
  refine ⟨?_, ?_, ?_, ?_, ?_, ?_, ?_⟩
  · unfold out123_samplesize
    split_ifs <;> norm_num
  · intro h1
    simp [out123_samplesize, h1]
  · intro h1 h2
    simp [out123_samplesize, h1, h2]
  · intro h1 h2 h3
    simp [out123_samplesize, h1, h2, h3]
  · intro h1 h2 h3 h4
    simp [out123_samplesize, h1, h2, h3, h4]
  · intro h
    subst h
    decide
  · intro h1 h2 h3 h4 h5 h6
    simp [out123_samplesize, h1, h2, h3, h4, h5, h6]

/-- Witness for C10: a signed 16 bit encoding with an extra wide bit set
still yields sample size 2, and the 64 bit float encoding yields 8. -/
theorem out123_samplesize_spec_witness :
    out123_samplesize 0x10d0 = 2 ∧ out123_samplesize 0x400 = 8 :=
  ⟨(out123_samplesize_spec 0x10d0).2.2.1 (by decide) (by decide),
   (out123_samplesize_spec 0x400).2.2.2.2.2.1 (by decide)⟩

/-- C3: for every defined parameter code, out123_param succeeds and a
subsequent out123_getparam on the resulting handle returns exactly the
value that was set: the long value for the integer parameters (flags, gain,
verbosity) and the floating value for the floating parameters (preload
fraction, device buffer seconds). -/
theorem out123_param_roundtrip (ao : Handle) (v : Int) (fv : Rat) :
    ((out123_param ao OUT123_FLAGS v fv).2 = 0 ∧
     (out123_getparam (out123_param ao OUT123_FLAGS v fv).1
       OUT123_FLAGS).2.1 = 0 ∧
     (out123_getparam (out123_param ao OUT123_FLAGS v fv).1
       OUT123_FLAGS).2.2.1 = v)
  ∧ ((out123_param ao OUT123_PRELOAD v fv).2 = 0 ∧
     (out123_getparam (out123_param ao OUT123_PRELOAD v fv).1
       OUT123_PRELOAD).2.1 = 0 ∧
     (out123_getparam (out123_param ao OUT123_PRELOAD v fv).1
       OUT123_PRELOAD).2.2.2 = fv)
  ∧ ((out123_param ao OUT123_GAIN v fv).2 = 0 ∧
     (out123_getparam (out123_param ao OUT123_GAIN v fv).1
       OUT123_GAIN).2.1 = 0 ∧
     (out123_getparam (out123_param ao OUT123_GAIN v fv).1
       OUT123_GAIN).2.2.1 = v)
  ∧ ((out123_param ao OUT123_VERBOSE v fv).2 = 0 ∧
     (out123_getparam (out123_param ao OUT123_VERBOSE v fv).1
       OUT123_VERBOSE).2.1 = 0 ∧
     (out123_getparam (out123_param ao OUT123_VERBOSE v fv).1
       OUT123_VERBOSE).2.2.1 = v)
  ∧ ((out123_param ao OUT123_DEVICEBUFFER v fv).2 = 0 ∧
     (out123_getparam (out123_param ao OUT123_DEVICEBUFFER v fv).1
       OUT123_DEVICEBUFFER).2.1 = 0 ∧
     (out123_getparam (out123_param ao OUT123_DEVICEBUFFER v fv).1
       OUT123_DEVICEBUFFER).2.2.2 = fv) := by
  norm_num [out123_param, out123_getparam, OUT123_FLAGS, OUT123_PRELOAD,
    OUT123_GAIN, OUT123_VERBOSE, OUT123_DEVICEBUFFER]

/-- C8: for every parameter code outside the defined out123_parms
enumeration, out123_param and out123_getparam fail with status -1 and
record the BadParameter error code on the handle. -/
theorem out123_param_unknown_code (ao : Handle) (code : Int) (v : Int)
    (fv : Rat)
    (h1 : code ≠ OUT123_FLAGS) (h2 : code ≠ OUT123_PRELOAD)
    (h3 : code ≠ OUT123_GAIN) (h4 : code ≠ OUT123_VERBOSE)
    (h5 : code ≠ OUT123_DEVICEBUFFER) :
    (out123_param ao code v fv).2 = -1
  ∧ (out123_param ao code v fv).1.errcode = OUT123_BAD_PARAM
  ∧ (out123_getparam ao code).2.1 = -1
  ∧ (out123_getparam ao code).1.errcode = OUT123_BAD_PARAM := by
  simp [out123_param, out123_getparam, h1, h2, h3, h4, h5]

/-- Witness for C8: parameter code 42 is outside the enumeration and makes
both calls fail with BadParameter. -/
theorem out123_param_unknown_code_witness :
    (out123_param out123_new 42 7 0).2 = -1
  ∧ (out123_param out123_new 42 7 0).1.errcode = OUT123_BAD_PARAM
  ∧ (out123_getparam out123_new 42).2.1 = -1
  ∧ (out123_getparam out123_new 42).1.errcode = OUT123_BAD_PARAM :=
  out123_param_unknown_code out123_new 42 7 0 (by decide) (by decide)
    (by decide) (by decide) (by decide)

/-- C4: out123_open on a handle in the Closed state with a candidate list
in which no driver resolves and loads (in particular an empty list) fails
with status -1, records the no-driver error code, and leaves the open state
untouched: the playback state stays Closed and the driver, parameters and
buffering fields are unchanged. -/
theorem out123_open_no_driver (loadable : List String) (ao : Handle)
    (driver_names : List String)
    (hclosed : ao.state = PlayState.Closed)
    (hnone : ∀ d ∈ driver_names, d ∉ loadable) :
    (out123_open loadable ao driver_names).2 = -1
  ∧ (out123_open loadable ao driver_names).1.errcode = OUT123_NO_DRIVER
  ∧ (out123_open loadable ao driver_names).1.state = PlayState.Closed
  ∧ (out123_open loadable ao driver_names).1.driver = ao.driver
  ∧ (out123_open loadable ao driver_names).1.params = ao.params
  ∧ (out123_open loadable ao driver_names).1.buffer_size = ao.buffer_size
  ∧ (out123_open loadable ao driver_names).1.buffered = ao.buffered := by
  have hload : registry_load loadable driver_names = none := by
    apply List.find?_eq_none.mpr
    intro d hd
    simpa using hnone d hd
  simp [out123_open, hload, hclosed]

/-- Witness for C4: a fresh handle opened against the single candidate
pulse when only alsa is loadable fails with no-driver and stays Closed. -/
theorem out123_open_no_driver_witness :
    (out123_open ["alsa"] out123_new ["pulse"]).2 = -1
  ∧ (out123_open ["alsa"] out123_new ["pulse"]).1.errcode = OUT123_NO_DRIVER
  ∧ (out123_open ["alsa"] out123_new ["pulse"]).1.state =
      PlayState.Closed :=
  ⟨(out123_open_no_driver ["alsa"] out123_new ["pulse"] rfl
      (by decide)).1,
   (out123_open_no_driver ["alsa"] out123_new ["pulse"] rfl
      (by decide)).2.1,
   (out123_open_no_driver ["alsa"] out123_new ["pulse"] rfl
      (by decide)).2.2.1⟩

/-- C5: after out123_drain returns, out123_buffered reports 0: the ring
buffer of the buffering subsystem is empty and the backend reports nothing
buffered; drain changes no playback state. -/
theorem out123_drain_empties (ao : Handle) :
    out123_buffered (out123_drain ao) = 0
  ∧ (out123_drain ao).backend_buffered = 0
  ∧ (out123_drain ao).state = ao.state := by
  simp [out123_buffered, out123_drain]

/-- C6: immediately after out123_drop returns, out123_buffered reports 0
and the high-level state is unchanged; this holds from every handle state,
including the state reached part way through a play call, so a drop issued
mid-write also leaves nothing buffered. -/
theorem out123_drop_empties (ao : Handle) (trace : List Nat) (bytes : Nat) :
    out123_buffered (out123_drop ao) = 0
  ∧ (out123_drop ao).backend_buffered = 0
  ∧ (out123_drop ao).state = ao.state
  ∧ out123_buffered (out123_drop (out123_play ao trace bytes).1) = 0 := by
  refine ⟨by simp [out123_buffered, out123_drop], rfl, rfl, ?_⟩
  simp [out123_buffered, out123_drop]

/-- C9: out123_close and out123_del never fail outwardly: close returns no
status and leaves the recorded error code untouched, and destruction always
forces the handle to the Closed state, releasing the driver and tearing
down the buffering resources, before deallocation. -/
theorem out123_close_del_spec (ao : Handle) :
    (out123_close ao).state = PlayState.Closed
  ∧ (out123_close ao).driver = none
  ∧ (out123_close ao).errcode = ao.errcode
  ∧ (out123_del ao).state = PlayState.Closed
  ∧ (out123_del ao).driver = none
  ∧ (out123_del ao).buffer_size = 0
  ∧ (out123_del ao).buffered = 0
  ∧ (out123_del ao).backend_buffered = 0
  ∧ (out123_del ao).errcode = ao.errcode := by
  simp [out123_close, out123_del]

/-- C7: out123_set_buffer with size 0 succeeds on every handle in every
state; once the separate execution context mechanism is unavailable on the
platform, a non-zero call fails with the buffer infrastructure error and
every later non-zero call on the resulting handle fails as well, while a
zero-sized call still succeeds. -/
theorem out123_set_buffer_spec (ao : Handle) (n m : Nat) :
    (out123_set_buffer ao 0).2 = 0
  ∧ (ao.fork_broken = true → n ≠ 0 →
      (out123_set_buffer ao n).2 = -1
    ∧ (out123_set_buffer ao n).1.errcode = OUT123_BUFFER_ERROR
    ∧ (m ≠ 0 →
        (out123_set_buffer (out123_set_buffer ao n).1 m).2 = -1)
    ∧ (out123_set_buffer (out123_set_buffer ao n).1 0).2 = 0) := by
  constructor
  · simp [out123_set_buffer]
  · intro hb hn
    refine ⟨?_, ?_, ?_, ?_⟩
    · simp [out123_set_buffer, hb, hn]
    · simp [out123_set_buffer, hb, hn]
    · intro hm
      simp [out123_set_buffer, hb, hn, hm]
    · simp [out123_set_buffer, hb, hn]

/-- Witness for C7: on a handle whose platform cannot fork, a 4096 byte
request fails, a following 1024 byte request fails again, and a zero-sized
request succeeds. -/
theorem out123_set_buffer_spec_witness :
    (out123_set_buffer { out123_new with fork_broken := true } 4096).2 = -1
  ∧ (out123_set_buffer
      (out123_set_buffer { out123_new with fork_broken := true } 4096).1
      1024).2 = -1
  ∧ (out123_set_buffer { out123_new with fork_broken := true } 0).2 = 0 :=
  ⟨((out123_set_buffer_spec { out123_new with fork_broken := true }
      4096 1024).2 rfl (by decide)).1,
   ((out123_set_buffer_spec { out123_new with fork_broken := true }
      4096 1024).2 rfl (by decide)).2.2.1 (by decide),
   (out123_set_buffer_spec { out123_new with fork_broken := true }
      4096 1024).1⟩

/-- C1: on a handle with a started device, an out123_play call whose
backend writes are interrupted by asynchronous non-fatal signals (each
attempt of the trace moving only part of the remainder) retries under the
keep-playing flag (the default) until all requested bytes are moved, so
absent real device errors the returned count equals the requested count;
with the flag cleared the call returns the partial count of the single
attempt and, when that count falls short, records an error code on the
handle for the caller to inspect. -/
theorem out123_play_spec (ao : Handle) (trace : List Nat) (bytes : Nat)
    (hstart : ao.state = PlayState.Started ∨ ao.state = PlayState.Playing) :
    (Int.land ao.params.flags OUT123_KEEP_PLAYING ≠ 0 →
       bytes ≤ trace.sum →
       (out123_play ao trace bytes).2 = bytes)
  ∧ (Int.land ao.params.flags OUT123_KEEP_PLAYING = 0 →
       (out123_play ao trace bytes).2 = min (trace.headD 0) bytes
     ∧ (min (trace.headD 0) bytes < bytes →
         (out123_play ao trace bytes).1.errcode = OUT123_DEV_PLAY)) := by
  constructor
  · intro hkeep hsum
    simp only [out123_play, if_pos hstart, if_pos hkeep, playLoop_eq_min]
    omega
  · intro hkeep
    have hkeep2 : ¬ Int.land ao.params.flags OUT123_KEEP_PLAYING ≠ 0 := by
      simp [hkeep]
    constructor
    · simp only [out123_play, if_pos hstart, if_neg hkeep2]
      split <;> rfl
    · intro hlt
      simp only [out123_play, if_pos hstart, if_neg hkeep2, if_pos hlt]

/-- Witness for C1: a fresh handle (keep-playing on by default) moved to
the Started state plays all 10 requested bytes across three interrupted
attempts of 3, 4 and 5 bytes. -/
theorem out123_play_spec_witness :
    (out123_play { out123_new with state := PlayState.Started }
      [3, 4, 5] 10).2 = 10 :=
  (out123_play_spec { out123_new with state := PlayState.Started }
    [3, 4, 5] 10 (Or.inl rfl)).1 (by decide) (by decide)

/-- C2: out123_get_encodings returns either a non-negative bitwise or of
supported encoding flags that occupies only 15 bits, or the sentinel -1 on
error or on an unsupported combination; in particular a successful result
never equals -1. -/
theorem out123_get_encodings_range (backend : Int → Int → Nat → Bool)
    (ao : Handle) (channels rate : Int) :
    (out123_get_encodings backend ao channels rate).2 = -1
  ∨ (0 ≤ (out123_get_encodings backend ao channels rate).2
    ∧ (out123_get_encodings backend ao channels rate).2 < 2 ^ 15
    ∧ (out123_get_encodings backend ao channels rate).2 ≠ -1) := by
  unfold out123_get_encodings
  by_cases hd : ao.driver = none
  · rw [if_pos hd]
    exact Or.inl rfl
  · rw [if_neg hd]
    by_cases he :
        (mpg123_encodings.filter (backend channels rate)).isEmpty = true
    · rw [if_pos he]
      exact Or.inl rfl
    · rw [if_neg he]
      have hlt :
          (mpg123_encodings.filter (backend channels rate)).foldl
            (fun a b => a ||| b) 0 < 2 ^ 15 := by
        apply foldl_or_lt
        · norm_num
        · intro e hme
          exact mpg123_encodings_lt e (List.mem_of_mem_filter hme)
      refine Or.inr ⟨Int.natCast_nonneg _, ?_, ?_⟩
      · dsimp only
        exact_mod_cast hlt
      · dsimp only
        omega
